import Mathlib

/-!
Verification development for the addcopyfighandler repository.

The repository is a single Python module (present in two historical
revisions: the flat-layout file at the repo root, version 3.0.0, and the
src-layout file, version 3.1.0) that monkey-patches matplotlib's
plt.figure so that Ctrl+C copies the focused figure to the OS clipboard.

This file shallowly embeds the module's operations:
  - format resolution (the format argument / rcParams default, lowercased
    and validated against the per-variant format map);
  - the focused-window resolver (linear scan of plt.get_fignums for the
    first window title equal to the focused window's title);
  - the Windows clipboard pipeline (savefig into a buffer, optional
    Pillow re-encoding to a device-independent bitmap, then the
    OpenClipboard / EmptyClipboard / SetClipboardData / CloseClipboard
    sequence, with possible failure of the middle two calls modelled
    explicitly: a failing call aborts the straight-line sequence, as a
    raised exception does in Python);
  - the Qt and GTK3 Linux variants;
  - module-load variant selection and the newfig constructor wrapper.

External collaborators (fig.savefig, PIL decode/convert/encode,
QImage.fromData, RegisterClipboardFormat) are carried as function-valued
fields of an environment record: they are opaque to this module, which
only composes their outputs.  Byte buffers are lists of naturals.
-/

/-- Byte sequences (contents of a BytesIO buffer, clipboard payloads). -/
abbrev Bytes := List Nat

/-- Python's str.lower applied characterwise; the module only ever
lowercases ASCII format names, so the ASCII mapping of Char.toLower is
the faithful fragment. -/
def pyLower (s : String) : String := String.mk (s.data.map Char.toLower)

/-- One call into the win32clipboard API, for tracing which clipboard
operations an execution performs. -/
inductive ClipCall where
  | openClip
  | emptyClip
  | setData (formatId : Nat) (data : Bytes)
  | closeClip
  deriving Repr, DecidableEq

/-- Whether the two fallible clipboard calls (EmptyClipboard and
SetClipboardData) succeed in a given execution; OpenClipboard and
CloseClipboard are modelled as non-failing. -/
structure ClipBehavior where
  emptyOk : Bool
  setOk : Bool
  deriving Repr, DecidableEq

/-- The final four lines of the Windows copyfig (both versions):

    win32clipboard.OpenClipboard()
    win32clipboard.EmptyClipboard()
    win32clipboard.SetClipboardData(format_id, data)
    win32clipboard.CloseClipboard()

Straight-line calls with no try/finally: a call that raises aborts the
rest of the sequence and the exception propagates.  Returns the trace of
calls performed and the propagated error, if any. -/
def runClipboardWrite (b : ClipBehavior) (formatId : Nat) (data : Bytes) :
    List ClipCall × Option String :=
  if b.emptyOk = false then
    ([.openClip, .emptyClip], some "error: EmptyClipboard failed")
  else if b.setOk = false then
    ([.openClip, .emptyClip, .setData formatId data], some "error: SetClipboardData failed")
  else
    ([.openClip, .emptyClip, .setData formatId data, .closeClip], none)

/-- The format_map dict of the version 3.0.0 Windows copyfig. -/
def format_map_v300 : List (String × String) :=
  [("png", "PNG"), ("svg", "image/svg+xml"), ("jpg", "JFIF"), ("jpeg", "JFIF")]

/-- The format_map dict of the version 3.1.0 Windows copyfig. -/
def format_map_v310 : List (String × String) :=
  [("png", "PNG"), ("svg", "image/svg+xml"), ("jpg", "JFIF"), ("jpeg", "JFIF")]

/-- Version 3.0.0 Windows format resolution (lines 66-72): default the
format from rcParams when absent, lowercase it, and raise ValueError
when it is not a key of format_map. -/
def resolveFormat_v300 (formatArg : Option String) (rcFormat : String) :
    Except String String :=
  let f := pyLower (formatArg.getD rcFormat)
  if (format_map_v300.lookup f).isSome then Except.ok f
  else Except.error
    ("ValueError: Format " ++ f ++ " is not supported (supported formats: png, svg, jpg, jpeg)")

/-- Version 3.1.0 Windows format resolution (lines 81-86): default the
format from rcParams when absent, lowercase it, and silently replace it
by png when it is not a key of format_map. -/
def resolveFormat_v310 (formatArg : Option String) (rcFormat : String) : String :=
  let f := pyLower (formatArg.getD rcFormat)
  if (format_map_v310.lookup f).isSome then f else "png"

/-- The focused-window scan shared by every variant:

    for i in plt.get_fignums():
        if plt.figure(i).canvas.manager.get_window_title() == fig_window_text:
            fig = plt.figure(i)
            break

The open figures are given as the list of (figure number, window title)
pairs in plt.get_fignums() enumeration order; the first exact title
match is returned. -/
def findFigure : List (Nat × String) → String → Option Nat
  | [], _ => none
  | (i, title) :: rest, focus =>
      if title = focus then some i else findFigure rest focus

/-- Figure resolution of copyfig: an explicitly passed figure is used as
is; with fig=None the focused-window scan runs. -/
def resolveFig (figures : List (Nat × String)) (focus : String)
    (figArg : Option Nat) : Option Nat :=
  match figArg with
  | some f => some f
  | none => findFigure figures focus

/-- Environment of the Windows copyfig: process-wide matplotlib state,
the open figures with their window titles, the focused window's title,
and the external collaborators as opaque functions (fig.savefig keyed by
figure number and format; PIL Image.open, convert("RGB") and BMP
encoding on opaque image values carried as Bytes; the OS registry of
named clipboard formats). -/
structure WinEnv where
  rcSavefigFormat : String
  pilAvailable : Bool
  figures : List (Nat × String)
  focusTitle : String
  savefig : Nat → String → Bytes
  pilOpen : Bytes → Bytes
  convertRGB : Bytes → Bytes
  saveBMP : Bytes → Bytes
  registerFormat : String → Nat

/-- Outcome of one Windows copyfig execution: the clipboard calls
performed, the (format id, data) payload when one was constructed, and
the propagated exception message, if any. -/
structure CopyResult where
  trace : List ClipCall
  payload : Option (Nat × Bytes)
  error : Option String
  deriving Repr, DecidableEq

/-- The numeric value of win32clipboard.CF_DIB. -/
def CF_DIB : Nat := 8

/-- Version 3.1.0 Windows payload construction (lines 104-121): savefig
into the buffer; for non-svg formats, when Pillow imports, re-encode the
decoded image as BMP in RGB mode, strip the 14-byte BMP file header and
tag with CF_DIB; otherwise (svg, or Pillow missing) use the buffer as is
and tag with the registered format from format_map. -/
def winPayload_v310 (env : WinEnv) (fig : Nat) (format : String) : Nat × Bytes :=
  let buf := env.savefig fig format
  if format ≠ "svg" then
    if env.pilAvailable then
      (CF_DIB, (env.saveBMP (env.convertRGB (env.pilOpen buf))).drop 14)
    else
      (env.registerFormat ((format_map_v310.lookup format).getD ""), buf)
  else
    (env.registerFormat ((format_map_v310.lookup format).getD ""), buf)

/-- Version 3.0.0 Windows payload construction (lines 90-93): register
the mapped clipboard format name and use the savefig buffer as is. -/
def winPayload_v300 (env : WinEnv) (fig : Nat) (format : String) : Nat × Bytes :=
  (env.registerFormat ((format_map_v300.lookup format).getD ""), env.savefig fig format)

/-- Version 3.1.0 Windows copyfig: resolve the format (silent png
fallback), resolve the figure (raising AttributeError when none is
found), build the payload, run the clipboard write sequence. -/
def copyfig_win_v310 (env : WinEnv) (b : ClipBehavior) (figArg : Option Nat)
    (formatArg : Option String) : CopyResult :=
  let format := resolveFormat_v310 formatArg env.rcSavefigFormat
  match resolveFig env.figures env.focusTitle figArg with
  | none => { trace := [], payload := none, error := some "AttributeError: No figure found!" }
  | some fig =>
    let p := winPayload_v310 env fig format
    let (t, e) := runClipboardWrite b p.1 p.2
    { trace := t, payload := some p, error := e }

/-- Version 3.0.0 Windows copyfig: validate the format first (raising
ValueError on an unsupported one, before any figure resolution or
clipboard interaction), resolve the figure, build the payload, run the
clipboard write sequence. -/
def copyfig_win_v300 (env : WinEnv) (b : ClipBehavior) (figArg : Option Nat)
    (formatArg : Option String) : CopyResult :=
  match resolveFormat_v300 formatArg env.rcSavefigFormat with
  | Except.error e => { trace := [], payload := none, error := some e }
  | Except.ok format =>
    match resolveFig env.figures env.focusTitle figArg with
    | none => { trace := [], payload := none, error := some "AttributeError: No figure found!" }
    | some fig =>
      let p := winPayload_v300 env fig format
      let (t, e) := runClipboardWrite b p.1 p.2
      { trace := t, payload := some p, error := e }

/-- Environment of the Linux Qt copyfig: rcParams default format, open
figures with titles, title of QApplication.activeWindow(), and the
opaque collaborators fig.savefig and QImage.fromData. -/
structure QtEnv where
  rcSavefigFormat : String
  figures : List (Nat × String)
  activeWindowTitle : String
  savefig : Nat → String → Bytes
  qimageFromData : Bytes → Bytes

/-- The one clipboard interaction of the Qt variant:
clipboard().setImage(image). -/
inductive QtAction where
  | setImage (image : Bytes)
  deriving Repr, DecidableEq

/-- Outcome of one Qt copyfig execution: the format string passed to
savefig, the clipboard action performed, and the propagated exception,
if any. -/
structure QtResult where
  formatUsed : Option String
  action : Option QtAction
  error : Option String
  deriving Repr, DecidableEq

/-- Version 3.1.0 Qt copyfig (lines 148-184): resolve the figure
(raising AttributeError when none is found), save as png
unconditionally, and set the QImage built from the buffer as the
clipboard image. -/
def copyfig_qt_v310 (env : QtEnv) (figArg : Option Nat) : QtResult :=
  match resolveFig env.figures env.activeWindowTitle figArg with
  | none => { formatUsed := none, action := none,
              error := some "AttributeError: No figure found!" }
  | some fig =>
    { formatUsed := some "png",
      action := some (QtAction.setImage (env.qimageFromData (env.savefig fig "png"))),
      error := none }

/-- The formats list of the version 3.0.0 Qt copyfig. -/
def qtFormats_v300 : List String := ["png", "jpg", "jpeg", "tiff"]

/-- Version 3.0.0 Qt copyfig (lines 115-159): resolve the format
(rcParams default, lowercase, silent png fallback outside the formats
list), resolve the figure (raising AttributeError when none is found),
save in the resolved format, and set the QImage built from the buffer
as the clipboard image. -/
def copyfig_qt_v300 (env : QtEnv) (figArg : Option Nat)
    (formatArg : Option String) : QtResult :=
  let f := pyLower (formatArg.getD env.rcSavefigFormat)
  let format := if f ∈ qtFormats_v300 then f else "png"
  match resolveFig env.figures env.activeWindowTitle figArg with
  | none => { formatUsed := none, action := none,
              error := some "AttributeError: No figure found!" }
  | some fig =>
    { formatUsed := some format,
      action := some (QtAction.setImage (env.qimageFromData (env.savefig fig format))),
      error := none }

/-- Environment of the version 3.1.0 Linux GTK3 copyfig: open figures
with titles, the focused-window title recovered through the two xprop
subprocess calls, the figure plt.gcf() would return, and the opaque
collaborators fig.savefig and PIL decoding (Image.open followed by
im.size and im.tobytes, on an opaque image carried as its size plus raw
bytes). -/
structure GtkEnv where
  figures : List (Nat × String)
  xpropTitle : String
  gcf : Nat
  savefig : Nat → String → Bytes
  pilOpenPNG : Bytes → (Nat × Nat) × Bytes

/-- The GdkPixbuf.Pixbuf.new_from_bytes arguments used by the GTK3
variant. -/
structure GdkPixbufData where
  data : Bytes
  colorspaceRGB : Bool
  hasAlpha : Bool
  bitsPerSample : Nat
  width : Nat
  height : Nat
  rowstride : Nat
  deriving Repr, DecidableEq

/-- Outcome of one GTK3 copyfig execution: the figure exported, the
pixbuf set on the clipboard, whether clipboard.store() ran, and the
propagated exception, if any. -/
structure GtkResult where
  figUsed : Option Nat
  pixbuf : Option GdkPixbufData
  stored : Bool
  error : Option String
  deriving Repr, DecidableEq

/-- Version 3.1.0 GTK3 copyfig (lines 199-249): resolve the figure,
where the for-else of the focused-window scan falls back to plt.gcf()
when no title matches; save as png; decode size and raw RGBA bytes with
PIL; build the pixbuf (RGB colorspace, alpha, 8 bits per sample,
rowstride 4*w); set it on the clipboard and store. -/
def copyfig_gtk_v310 (env : GtkEnv) (figArg : Option Nat) : GtkResult :=
  let fig := match figArg with
    | some f => f
    | none =>
      match findFigure env.figures env.xpropTitle with
      | some i => i
      | none => env.gcf
  let buf := env.savefig fig "png"
  let vals := env.pilOpenPNG buf
  { figUsed := some fig,
    pixbuf := some { data := vals.2, colorspaceRGB := true, hasAlpha := true,
                     bitsPerSample := 8, width := vals.1.1, height := vals.1.2,
                     rowstride := vals.1.1 * 4 },
    stored := true,
    error := none }

/-- Substring test on character lists, modelling Python's in operator on
strings (needle appears contiguously in the haystack). -/
def listHasSub (needle : List Char) : List Char → Bool
  | [] => needle.isEmpty
  | c :: rest => needle.isPrefixOf (c :: rest) || listHasSub needle rest

/-- Python's needle in hay on strings. -/
def strContainsSub (hay needle : String) : Bool := listHasSub needle.data hay.data

/-- The three clipboard-writer variants the module can install. -/
inductive Variant where
  | windowsNative
  | qtLinux
  | gtkLinux
  deriving Repr, DecidableEq

/-- Version 3.1.0 module-level variant selection (the if/elif/else on
ostype, and on Linux the branch on the matplotlib backend, lines 49,
128-130, 186, 251-255): ostype is platform.system().lower(); on Linux a
backend containing the substring Qt selects the Qt variant, GTK3Agg
selects the GTK variant, anything else raises ValueError; an OS other
than Windows and Linux raises ValueError. -/
def selectVariant_v310 (platformSystem backend : String) : Except String Variant :=
  let ostype := pyLower platformSystem
  if ostype = "windows" then Except.ok Variant.windowsNative
  else if ostype = "linux" then
    if strContainsSub backend "Qt" then Except.ok Variant.qtLinux
    else if backend = "GTK3Agg" then Except.ok Variant.gtkLinux
    else Except.error
      ("ValueError: Unsupported matplotlib backend (" ++ backend ++
        "). On Linux must be QtAgg or GTK3Agg.")
  else Except.error
    ("ValueError: addcopyfighandler: Supported OSes are Windows and Linux.  Current OS: " ++ ostype)

/-- Version 3.0.0 module-level variant selection (lines 32, 100-102,
161, 242-246): same shape, but the Qt branch tests membership of the
backend in the list of Qt4Agg and Qt5Agg. -/
def selectVariant_v300 (platformSystem backend : String) : Except String Variant :=
  let ostype := pyLower platformSystem
  if ostype = "windows" then Except.ok Variant.windowsNative
  else if ostype = "linux" then
    if backend = "Qt5Agg" ∨ backend = "Qt4Agg" then Except.ok Variant.qtLinux
    else if backend = "GTK3Agg" then Except.ok Variant.gtkLinux
    else Except.error
      ("ValueError: Unsupported matplotlib backend (" ++ backend ++
        "). On Linux must be Qt4Agg, Qt5Agg, or GTK3Agg.")
  else Except.error
    ("ValueError: addcopyfighandler: Supported OSes are Windows and Linux.  Current OS: " ++ ostype)

/-- Whether plt.figure is still the original constructor or has been
rebound to the newfig wrapper. -/
inductive FigBinding where
  | original
  | hooked
  deriving Repr, DecidableEq

/-- Version 3.1.0 module body: run variant selection; when it raises,
the import aborts and plt.figure keeps its original binding; when it
succeeds, the module body reaches its last line, plt.figure = newfig. -/
def moduleLoad_v310 (platformSystem backend : String) : FigBinding × Option String :=
  match selectVariant_v310 platformSystem backend with
  | Except.ok _ => (FigBinding.hooked, none)
  | Except.error e => (FigBinding.original, some e)

/-- Version 3.0.0 module body, same shape as moduleLoad_v310. -/
def moduleLoad_v300 (platformSystem backend : String) : FigBinding × Option String :=
  match selectVariant_v300 platformSystem backend with
  | Except.ok _ => (FigBinding.hooked, none)
  | Except.error e => (FigBinding.original, some e)

/-- A figure as newfig observes it: its identity and the event
listeners connected on its canvas.  In Python newfig mutates the figure
returned by the wrapped constructor in place; the record update models
that mutation. -/
structure Fig where
  id : Nat
  canvasListeners : List String
  deriving Repr, DecidableEq

/-- fig.canvas.mpl_connect(eventName, handler): one more listener. -/
def mpl_connect (fig : Fig) (eventName : String) : Fig :=
  { fig with canvasListeners := fig.canvasListeners ++ [eventName] }

/-- The newfig wrapper (both versions, identically):

    def newfig(*args, **kwargs):
        fig = oldfig(*args, **kwargs)
        def clipboard_handler(event): ...
        fig.canvas.mpl_connect('key_press_event', clipboard_handler)
        return fig

The wrapped constructor is an opaque fallible function of the argument
list; its exception propagates unchanged. -/
def newfig (oldfigFn : List Nat → Except String Fig) (args : List Nat) :
    Except String Fig :=
  match oldfigFn args with
  | Except.error e => Except.error e
  | Except.ok fig => Except.ok (mpl_connect fig "key_press_event")

/-- The OS clipboard contents: nothing, or one (format id, data) slot,
as the module uses it. -/
abbrev ClipState := Option (Nat × Bytes)

/-- Effect of one clipboard call on the clipboard contents. -/
def applyCall (s : ClipState) : ClipCall → ClipState
  | ClipCall.openClip => s
  | ClipCall.emptyClip => none
  | ClipCall.setData fid d => some (fid, d)
  | ClipCall.closeClip => s

/-- Effect of a trace of clipboard calls on the clipboard contents. -/
def applyTrace (s : ClipState) (t : List ClipCall) : ClipState := t.foldl applyCall s

/-- Version 3.1.0 Windows copyfig as a state transformer on the
clipboard contents: the execution result plus the clipboard contents
after its trace is applied. -/
def copyfigRun_v310 (env : WinEnv) (b : ClipBehavior) (figArg : Option Nat)
    (formatArg : Option String) (s : ClipState) : ClipState × CopyResult :=
  let r := copyfig_win_v310 env b figArg formatArg
  (applyTrace s r.trace, r)

/-- Version 3.0.0 Windows copyfig as a state transformer on the
clipboard contents. -/
def copyfigRun_v300 (env : WinEnv) (b : ClipBehavior) (figArg : Option Nat)
    (formatArg : Option String) (s : ClipState) : ClipState × CopyResult :=
  let r := copyfig_win_v300 env b figArg formatArg
  (applyTrace s r.trace, r)

/-- Concrete Windows environment for witnesses: one figure titled
Figure 1 which also has focus; the opaque collaborators are injective
markers so distinct inputs stay distinguishable. -/
def demoWinEnv : WinEnv :=
  { rcSavefigFormat := "png"
    pilAvailable := true
    figures := [(1, "Figure 1")]
    focusTitle := "Figure 1"
    savefig := fun fig format => fig :: format.data.map Char.toNat
    pilOpen := fun bs => 100 :: bs
    convertRGB := fun bs => 101 :: bs
    saveBMP := fun bs => 102 :: bs
    registerFormat := fun s => s.length }

/-- demoWinEnv without Pillow. -/
def demoWinEnvNoPil : WinEnv := { demoWinEnv with pilAvailable := false }

/-- demoWinEnv with focus on an unrelated window. -/
def demoWinEnvNoMatch : WinEnv := { demoWinEnv with focusTitle := "Notepad" }

/-- Concrete Qt environment for witnesses. -/
def demoQtEnv : QtEnv :=
  { rcSavefigFormat := "png"
    figures := [(1, "Figure 1")]
    activeWindowTitle := "Figure 1"
    savefig := fun fig format => fig :: format.data.map Char.toNat
    qimageFromData := fun bs => 300 :: bs }

/-- demoQtEnv with focus on an unrelated window. -/
def demoQtEnvNoMatch : QtEnv := { demoQtEnv with activeWindowTitle := "Notepad" }

/-- Concrete GTK environment whose focused-window scan finds no match. -/
def demoGtkEnvNoMatch : GtkEnv :=
  { figures := [(1, "Figure 1")]
    xpropTitle := "Notepad"
    gcf := 1
    savefig := fun fig format => fig :: format.data.map Char.toNat
    pilOpenPNG := fun bs => ((2, 3), 200 :: bs) }

/-- A wrapped constructor for the newfig witness. -/
def demoOldfig : List Nat → Except String Fig :=
  fun _ => Except.ok { id := 7, canvasListeners := [] }

/-- C1 counterexample.  The claim asserts that on the Windows branch an
unsupported format string raises a reportable format error and no
clipboard call is performed.  In the version 3.1.0 file the unsupported
format bogus is silently replaced by png: the call raises nothing and
performs the full open / empty / set / close clipboard sequence. -/
theorem C1_counterexample :
    (copyfig_win_v310 demoWinEnv { emptyOk := true, setOk := true } none (some "bogus")).error
        = none ∧
    ClipCall.openClip ∈
      (copyfig_win_v310 demoWinEnv { emptyOk := true, setOk := true } none (some "bogus")).trace := by
  constructor
  · rfl
  · left

/-- C1, amended: version 3.0.0 raises ValueError on a format outside the
format map, before any clipboard call (empty trace); version 3.1.0
instead silently replaces such a format by png and behaves exactly as if
png had been requested. -/
theorem C1_unsupported_format (env : WinEnv) (b : ClipBehavior) (figArg : Option Nat)
    (f : String)
    (h300 : format_map_v300.lookup (pyLower f) = none)
    (h310 : format_map_v310.lookup (pyLower f) = none) :
    (copyfig_win_v300 env b figArg (some f)).error =
      some ("ValueError: Format " ++ pyLower f ++
        " is not supported (supported formats: png, svg, jpg, jpeg)") ∧
    (copyfig_win_v300 env b figArg (some f)).trace = [] ∧
    copyfig_win_v310 env b figArg (some f) = copyfig_win_v310 env b figArg (some "png") := by
  have hf300 : resolveFormat_v300 (some f) env.rcSavefigFormat =
      Except.error ("ValueError: Format " ++ pyLower f ++
        " is not supported (supported formats: png, svg, jpg, jpeg)") := by
    simp [resolveFormat_v300, h300]
  have hf310 : resolveFormat_v310 (some f) env.rcSavefigFormat = "png" := by
    simp [resolveFormat_v310, h310]
  have hpng : resolveFormat_v310 (some "png") env.rcSavefigFormat = "png" := by
    simp [resolveFormat_v310, pyLower, format_map_v310]
  refine ⟨?_, ?_, ?_⟩
  · simp [copyfig_win_v300, hf300]
  · simp [copyfig_win_v300, hf300]
  · simp [copyfig_win_v310, hf310, hpng]

/-- C1 witness: the amended statement instantiated at the concrete
environment and format bogus. -/
theorem C1_witness :
    (copyfig_win_v300 demoWinEnv { emptyOk := true, setOk := true } none (some "bogus")).error =
      some ("ValueError: Format " ++ pyLower "bogus" ++
        " is not supported (supported formats: png, svg, jpg, jpeg)") ∧
    (copyfig_win_v300 demoWinEnv { emptyOk := true, setOk := true } none (some "bogus")).trace = [] ∧
    copyfig_win_v310 demoWinEnv { emptyOk := true, setOk := true } none (some "bogus") =
      copyfig_win_v310 demoWinEnv { emptyOk := true, setOk := true } none (some "png") :=
  C1_unsupported_format demoWinEnv { emptyOk := true, setOk := true } none "bogus"
    (by decide) (by decide)

/-- C2 counterexample.  The claim asserts every copyfig execution that
calls OpenClipboard also calls CloseClipboard, even if SetClipboardData
fails.  With a failing SetClipboardData the version 3.1.0 sequence (no
try/finally) performs OpenClipboard but never CloseClipboard, and the
exception propagates. -/
theorem C2_counterexample :
    ClipCall.openClip ∈
      (copyfig_win_v310 demoWinEnv { emptyOk := true, setOk := false } none (some "png")).trace ∧
    ClipCall.closeClip ∉
      (copyfig_win_v310 demoWinEnv { emptyOk := true, setOk := false } none (some "png")).trace ∧
    (copyfig_win_v310 demoWinEnv { emptyOk := true, setOk := false } none (some "png")).error
      = some "error: SetClipboardData failed" := by
  refine ⟨?_, ?_, rfl⟩
  · left
  · decide

/-- C2, amended: in both versions CloseClipboard runs exactly when both
EmptyClipboard and SetClipboardData succeed; when either of them raises,
the exception propagates with the clipboard left open (the source has no
scoped acquisition/release around the four clipboard calls). -/
theorem C2_close_iff_success (env : WinEnv) (b : ClipBehavior) (figArg : Option Nat)
    (formatArg : Option String) :
    (ClipCall.openClip ∈ (copyfig_win_v310 env b figArg formatArg).trace →
      (ClipCall.closeClip ∈ (copyfig_win_v310 env b figArg formatArg).trace ↔
        b.emptyOk = true ∧ b.setOk = true)) ∧
    (ClipCall.openClip ∈ (copyfig_win_v300 env b figArg formatArg).trace →
      (ClipCall.closeClip ∈ (copyfig_win_v300 env b figArg formatArg).trace ↔
        b.emptyOk = true ∧ b.setOk = true)) := by
  constructor
  · intro hmem
    cases hfig : resolveFig env.figures env.focusTitle figArg with
    | none => simp [copyfig_win_v310, hfig] at hmem
    | some fig =>
      cases he : b.emptyOk <;> cases hs : b.setOk <;>
        simp [copyfig_win_v310, hfig, runClipboardWrite, he, hs]
  · intro hmem
    cases hfmt : resolveFormat_v300 formatArg env.rcSavefigFormat with
    | error e => simp [copyfig_win_v300, hfmt] at hmem
    | ok fmt =>
      cases hfig : resolveFig env.figures env.focusTitle figArg with
      | none => simp [copyfig_win_v300, hfmt, hfig] at hmem
      | some fig =>
        cases he : b.emptyOk <;> cases hs : b.setOk <;>
          simp [copyfig_win_v300, hfmt, hfig, runClipboardWrite, he, hs]

/-- C2 witness: on the all-succeeding execution the close call is
present. -/
theorem C2_witness :
    ClipCall.closeClip ∈
      (copyfig_win_v310 demoWinEnv { emptyOk := true, setOk := true } none (some "png")).trace :=
  ((C2_close_iff_success demoWinEnv { emptyOk := true, setOk := true } none (some "png")).1
    (by decide)).mpr ⟨rfl, rfl⟩

/-- C3 counterexample.  The claim asserts that in every variant a
focused-window scan with no title match makes copyfig raise a reportable
error and never silently substitute another figure.  In the version
3.1.0 GTK3 variant the for-else falls back to plt.gcf(): with one open
figure titled Figure 1 and focus on Notepad the scan finds nothing, yet
copyfig raises no error and exports the plt.gcf() figure. -/
theorem C3_counterexample :
    findFigure demoGtkEnvNoMatch.figures demoGtkEnvNoMatch.xpropTitle = none ∧
    (copyfig_gtk_v310 demoGtkEnvNoMatch none).error = none ∧
    (copyfig_gtk_v310 demoGtkEnvNoMatch none).figUsed = some demoGtkEnvNoMatch.gcf := by
  refine ⟨?_, rfl, rfl⟩
  decide

/-- C3, amended: when the focused-window scan finds no title match, the
Windows and Qt variants of both versions raise AttributeError (no
figure, no clipboard action); the version 3.1.0 GTK3 variant instead
silently falls back to exporting plt.gcf() with no error. -/
theorem C3_no_match_behavior (winEnv : WinEnv) (qtEnv : QtEnv) (gtkEnv : GtkEnv)
    (b : ClipBehavior) (formatArg : Option String)
    (hw : findFigure winEnv.figures winEnv.focusTitle = none)
    (hq : findFigure qtEnv.figures qtEnv.activeWindowTitle = none)
    (hg : findFigure gtkEnv.figures gtkEnv.xpropTitle = none) :
    ((copyfig_win_v300 winEnv b none (some "png")).error =
        some "AttributeError: No figure found!" ∧
      (copyfig_win_v300 winEnv b none (some "png")).trace = []) ∧
    ((copyfig_win_v310 winEnv b none formatArg).error =
        some "AttributeError: No figure found!" ∧
      (copyfig_win_v310 winEnv b none formatArg).trace = []) ∧
    ((copyfig_qt_v310 qtEnv none).error = some "AttributeError: No figure found!" ∧
      (copyfig_qt_v310 qtEnv none).action = none) ∧
    ((copyfig_qt_v300 qtEnv none formatArg).error = some "AttributeError: No figure found!" ∧
      (copyfig_qt_v300 qtEnv none formatArg).action = none) ∧
    ((copyfig_gtk_v310 gtkEnv none).error = none ∧
      (copyfig_gtk_v310 gtkEnv none).figUsed = some gtkEnv.gcf) := by
  have hfw : resolveFig winEnv.figures winEnv.focusTitle none = none := hw
  have hfq : resolveFig qtEnv.figures qtEnv.activeWindowTitle none = none := hq
  have hpng : resolveFormat_v300 (some "png") winEnv.rcSavefigFormat = Except.ok "png" := by
    simp [resolveFormat_v300, pyLower, format_map_v300]
  refine ⟨⟨?_, ?_⟩, ⟨?_, ?_⟩, ⟨?_, ?_⟩, ⟨?_, ?_⟩, ?_, ?_⟩
  · simp [copyfig_win_v300, hpng, hfw]
  · simp [copyfig_win_v300, hpng, hfw]
  · simp [copyfig_win_v310, hfw]
  · simp [copyfig_win_v310, hfw]
  · simp [copyfig_qt_v310, hfq]
  · simp [copyfig_qt_v310, hfq]
  · simp [copyfig_qt_v300, hfq]
  · simp [copyfig_qt_v300, hfq]
  · simp [copyfig_gtk_v310, hg]
  · simp [copyfig_gtk_v310, hg]

/-- C3 witness: the amended statement instantiated at concrete
environments whose focus title Notepad matches no open figure. -/
theorem C3_witness :
    ((copyfig_win_v300 demoWinEnvNoMatch { emptyOk := true, setOk := true } none
        (some "png")).error = some "AttributeError: No figure found!" ∧
      (copyfig_win_v300 demoWinEnvNoMatch { emptyOk := true, setOk := true } none
        (some "png")).trace = []) ∧
    ((copyfig_win_v310 demoWinEnvNoMatch { emptyOk := true, setOk := true } none none).error =
        some "AttributeError: No figure found!" ∧
      (copyfig_win_v310 demoWinEnvNoMatch { emptyOk := true, setOk := true } none none).trace
        = []) ∧
    ((copyfig_qt_v310 demoQtEnvNoMatch none).error = some "AttributeError: No figure found!" ∧
      (copyfig_qt_v310 demoQtEnvNoMatch none).action = none) ∧
    ((copyfig_qt_v300 demoQtEnvNoMatch none none).error =
        some "AttributeError: No figure found!" ∧
      (copyfig_qt_v300 demoQtEnvNoMatch none none).action = none) ∧
    ((copyfig_gtk_v310 demoGtkEnvNoMatch none).error = none ∧
      (copyfig_gtk_v310 demoGtkEnvNoMatch none).figUsed = some demoGtkEnvNoMatch.gcf) :=
  C3_no_match_behavior demoWinEnvNoMatch demoQtEnvNoMatch demoGtkEnvNoMatch
    { emptyOk := true, setOk := true } none (by decide) (by decide) (by decide)

/-- C4: on the version 3.1.0 Windows branch, whenever Pillow is
importable and the resolved format is not svg, the clipboard payload is
the BMP encoding of the RGB-converted decoded image with its first 14
bytes (the BMP file header) stripped, tagged CF_DIB — for every
requested raster format. -/
theorem C4_dib_reencoding (env : WinEnv) (b : ClipBehavior) (figArg : Option Nat)
    (formatArg : Option String) (fig : Nat)
    (hpil : env.pilAvailable = true)
    (hfig : resolveFig env.figures env.focusTitle figArg = some fig)
    (hfmt : resolveFormat_v310 formatArg env.rcSavefigFormat ≠ "svg") :
    (copyfig_win_v310 env b figArg formatArg).payload =
      some (CF_DIB,
        (env.saveBMP (env.convertRGB (env.pilOpen
          (env.savefig fig (resolveFormat_v310 formatArg env.rcSavefigFormat))))).drop 14) := by
  simp [copyfig_win_v310, hfig, winPayload_v310, hfmt, hpil]

/-- C4 witness: requesting jpg at the concrete environment yields the
CF_DIB-tagged header-stripped BMP re-encoding. -/
theorem C4_witness :
    (copyfig_win_v310 demoWinEnv { emptyOk := true, setOk := true } none
        (some "jpg")).payload =
      some (CF_DIB,
        (demoWinEnv.saveBMP (demoWinEnv.convertRGB (demoWinEnv.pilOpen
          (demoWinEnv.savefig 1
            (resolveFormat_v310 (some "jpg") demoWinEnv.rcSavefigFormat))))).drop 14) :=
  C4_dib_reencoding demoWinEnv { emptyOk := true, setOk := true } none (some "jpg") 1
    rfl (by decide) (by decide)

/-- C5: the newfig wrapper forwards the argument list unchanged to the
wrapped constructor; a constructor exception propagates unchanged; on
success it returns the constructed figure itself, modified only by the
one key_press_event listener connected on its canvas. -/
theorem C5_newfig_wrapper (oldfigFn : List Nat → Except String Fig) (args : List Nat) :
    (∀ e, oldfigFn args = Except.error e → newfig oldfigFn args = Except.error e) ∧
    (∀ fig, oldfigFn args = Except.ok fig →
      newfig oldfigFn args =
        Except.ok { id := fig.id,
                    canvasListeners := fig.canvasListeners ++ ["key_press_event"] }) := by
  constructor
  · intro e h
    simp [newfig, h]
  · intro fig h
    simp [newfig, h, mpl_connect]

/-- C5 witness: the wrapper applied to a concrete constructor returns
the same figure with exactly the one listener attached. -/
theorem C5_witness :
    newfig demoOldfig [] =
      Except.ok { id := 7, canvasListeners := ["key_press_event"] } :=
  (C5_newfig_wrapper demoOldfig []).2 { id := 7, canvasListeners := [] } rfl

/-- C6: the focused-window scan is exactly the first-match linear
search: it returns the number of the first figure, in plt.get_fignums()
enumeration order, whose window title equals the focused title — so with
duplicate titles the earliest figure wins. -/
theorem C6_first_match (figures : List (Nat × String)) (focus : String) :
    findFigure figures focus =
      (figures.find? (fun p => p.2 = focus)).map Prod.fst := by
  induction figures with
  | nil => rfl
  | cons p rest ih =>
    obtain ⟨i, t⟩ := p
    by_cases h : t = focus
    · simp [findFigure, h, List.find?]
    · simp [findFigure, h, List.find?, ih]

/-- C7 counterexample.  The claim asserts the Qt-style variant always
encodes in the single fixed format png.  The version 3.0.0 Qt copyfig
honours a requested jpg format: savefig is called with jpg, not png. -/
theorem C7_counterexample :
    (copyfig_qt_v300 demoQtEnv none (some "jpg")).formatUsed = some "jpg" ∧
    (copyfig_qt_v300 demoQtEnv none (some "jpg")).formatUsed ≠ some "png" := by
  constructor
  · rfl
  · decide

/-- C7, amended: the version 3.1.0 Qt copyfig always saves as png and
sets the QImage built from the buffer directly as the clipboard image
with no format tagging; the version 3.0.0 Qt copyfig saves in the
requested format when it is among png, jpg, jpeg, tiff (falling back to
png otherwise) and likewise sets the QImage directly. -/
theorem C7_qt_encoding (env : QtEnv) (figArg : Option Nat) (formatArg : Option String)
    (fig : Nat)
    (hfig : resolveFig env.figures env.activeWindowTitle figArg = some fig) :
    ((copyfig_qt_v310 env figArg).formatUsed = some "png" ∧
      (copyfig_qt_v310 env figArg).action =
        some (QtAction.setImage (env.qimageFromData (env.savefig fig "png")))) ∧
    (pyLower (formatArg.getD env.rcSavefigFormat) ∈ qtFormats_v300 →
      (copyfig_qt_v300 env figArg formatArg).formatUsed =
        some (pyLower (formatArg.getD env.rcSavefigFormat)) ∧
      (copyfig_qt_v300 env figArg formatArg).action =
        some (QtAction.setImage (env.qimageFromData
          (env.savefig fig (pyLower (formatArg.getD env.rcSavefigFormat)))))) ∧
    (pyLower (formatArg.getD env.rcSavefigFormat) ∉ qtFormats_v300 →
      (copyfig_qt_v300 env figArg formatArg).formatUsed = some "png" ∧
      (copyfig_qt_v300 env figArg formatArg).action =
        some (QtAction.setImage (env.qimageFromData (env.savefig fig "png")))) := by
  refine ⟨⟨?_, ?_⟩, ?_, ?_⟩
  · simp [copyfig_qt_v310, hfig]
  · simp [copyfig_qt_v310, hfig]
  · intro h
    constructor <;> simp [copyfig_qt_v300, hfig, if_pos h]
  · intro h
    constructor <;> simp [copyfig_qt_v300, hfig, if_neg h]

/-- C7 witness: the amended statement instantiated at the concrete Qt
environment, once with a requested tiff (a supported format, honoured)
and once with a requested bogus format (unsupported, png fallback). -/
theorem C7_witness :
    (((copyfig_qt_v310 demoQtEnv none).formatUsed = some "png" ∧
      (copyfig_qt_v310 demoQtEnv none).action =
        some (QtAction.setImage (demoQtEnv.qimageFromData (demoQtEnv.savefig 1 "png")))) ∧
    ((copyfig_qt_v300 demoQtEnv none (some "tiff")).formatUsed =
        some (pyLower ((some "tiff").getD demoQtEnv.rcSavefigFormat)) ∧
      (copyfig_qt_v300 demoQtEnv none (some "tiff")).action =
        some (QtAction.setImage (demoQtEnv.qimageFromData
          (demoQtEnv.savefig 1 (pyLower ((some "tiff").getD demoQtEnv.rcSavefigFormat)))))) ∧
    ((copyfig_qt_v300 demoQtEnv none (some "bogus")).formatUsed = some "png" ∧
      (copyfig_qt_v300 demoQtEnv none (some "bogus")).action =
        some (QtAction.setImage (demoQtEnv.qimageFromData (demoQtEnv.savefig 1 "png"))))) :=
  ⟨(C7_qt_encoding demoQtEnv none (some "tiff") 1 (by decide)).1,
   (C7_qt_encoding demoQtEnv none (some "tiff") 1 (by decide)).2.1 (by decide),
   (C7_qt_encoding demoQtEnv none (some "bogus") 1 (by decide)).2.2 (by decide)⟩

/-- C8: when the detected OS is neither Windows nor Linux, or the OS is
Linux and the backend neither contains Qt nor equals GTK3Agg, module
loading raises ValueError and plt.figure keeps its original binding (the
hook is never installed), in both versions. -/
theorem C8_unsupported_configuration (platformSystem backend : String)
    (h : (pyLower platformSystem ≠ "windows" ∧ pyLower platformSystem ≠ "linux") ∨
         (pyLower platformSystem = "linux" ∧ strContainsSub backend "Qt" = false ∧
           backend ≠ "GTK3Agg")) :
    ((moduleLoad_v310 platformSystem backend).1 = FigBinding.original ∧
      (∃ e, (moduleLoad_v310 platformSystem backend).2 = some e)) ∧
    ((moduleLoad_v300 platformSystem backend).1 = FigBinding.original ∧
      (∃ e, (moduleLoad_v300 platformSystem backend).2 = some e)) := by
  rcases h with ⟨h1, h2⟩ | ⟨h1, h2, h3⟩
  · refine ⟨⟨?_, ?_⟩, ?_, ?_⟩ <;>
      simp [moduleLoad_v310, moduleLoad_v300, selectVariant_v310, selectVariant_v300, h1, h2]
  · have hq5 : backend ≠ "Qt5Agg" := by
      intro hb
      rw [hb] at h2
      exact absurd h2 (by decide)
    have hq4 : backend ≠ "Qt4Agg" := by
      intro hb
      rw [hb] at h2
      exact absurd h2 (by decide)
    refine ⟨⟨?_, ?_⟩, ?_, ?_⟩ <;>
      simp [moduleLoad_v310, moduleLoad_v300, selectVariant_v310, selectVariant_v300,
        h1, h2, h3, hq5, hq4]

/-- C8 witness: loading on Darwin with the MacOSX backend aborts with an
error in both versions and leaves plt.figure unhooked. -/
theorem C8_witness :
    ((moduleLoad_v310 "Darwin" "MacOSX").1 = FigBinding.original ∧
      (∃ e, (moduleLoad_v310 "Darwin" "MacOSX").2 = some e)) ∧
    ((moduleLoad_v300 "Darwin" "MacOSX").1 = FigBinding.original ∧
      (∃ e, (moduleLoad_v300 "Darwin" "MacOSX").2 = some e)) :=
  C8_unsupported_configuration "Darwin" "MacOSX" (Or.inl ⟨by decide, by decide⟩)

/-- C9: two-run determinism of the payload-construction path.  Running
the Windows copyfig twice with the same figure, format, arguments and
process-wide configuration — the second run starting from the clipboard
state the first run produced — yields the identical result, clipboard
payload bytes included, in both versions.  The save routine is a
function of the figure and format in the environment, which is exactly
the claim's proviso that its output is deterministic. -/
theorem C9_two_run_determinism (env : WinEnv) (b : ClipBehavior) (figArg : Option Nat)
    (formatArg : Option String) (s0 : ClipState) :
    ((copyfigRun_v310 env b figArg formatArg
        (copyfigRun_v310 env b figArg formatArg s0).1).2 =
      (copyfigRun_v310 env b figArg formatArg s0).2) ∧
    ((copyfigRun_v300 env b figArg formatArg
        (copyfigRun_v300 env b figArg formatArg s0).1).2 =
      (copyfigRun_v300 env b figArg formatArg s0).2) :=
  ⟨rfl, rfl⟩

/-- Packing a codepoint below the surrogate range into a Char and
reading it back is the identity. -/
theorem char_toNat_ofNat_of_lt (n : Nat) (h : n < 55296) : (Char.ofNat n).toNat = n := by
  have hv : n.isValidChar := Or.inl h
  simp [Char.ofNat, hv, Char.ofNatAux, Char.toNat, UInt32.toNat]

/-- Unfolding of Char.toLower. -/
theorem char_toLower_eq (c : Char) :
    c.toLower = if c.toNat ≥ 65 ∧ c.toNat ≤ 90 then Char.ofNat (c.toNat + 32) else c := rfl

/-- Lowercasing a character twice equals lowercasing it once. -/
theorem char_toLower_toLower (c : Char) : c.toLower.toLower = c.toLower := by
  rw [char_toLower_eq c]
  by_cases h : c.toNat ≥ 65 ∧ c.toNat ≤ 90
  · rw [if_pos h, char_toLower_eq]
    have h32 : (Char.ofNat (c.toNat + 32)).toNat = c.toNat + 32 :=
      char_toNat_ofNat_of_lt _ (by omega)
    rw [h32, if_neg (by omega)]
  · rw [if_neg h, char_toLower_eq, if_neg h]

/-- Lowercasing a string twice equals lowercasing it once. -/
theorem pyLower_idem (s : String) : pyLower (pyLower s) = pyLower s := by
  show String.mk ((s.data.map Char.toLower).map Char.toLower) =
    String.mk (s.data.map Char.toLower)
  rw [List.map_map]
  have h : Char.toLower ∘ Char.toLower = Char.toLower := funext char_toLower_toLower
  rw [h]

/-- The version 3.1.0 Windows copyfig depends on its format argument
only through format resolution. -/
theorem copyfig_win_v310_format_congr (env : WinEnv) (b : ClipBehavior)
    (figArg : Option Nat) (a1 a2 : Option String)
    (h : resolveFormat_v310 a1 env.rcSavefigFormat =
      resolveFormat_v310 a2 env.rcSavefigFormat) :
    copyfig_win_v310 env b figArg a1 = copyfig_win_v310 env b figArg a2 := by
  unfold copyfig_win_v310
  rw [h]

/-- The version 3.0.0 Windows copyfig depends on its format argument
only through format resolution. -/
theorem copyfig_win_v300_format_congr (env : WinEnv) (b : ClipBehavior)
    (figArg : Option Nat) (a1 a2 : Option String)
    (h : resolveFormat_v300 a1 env.rcSavefigFormat =
      resolveFormat_v300 a2 env.rcSavefigFormat) :
    copyfig_win_v300 env b figArg a1 = copyfig_win_v300 env b figArg a2 := by
  unfold copyfig_win_v300
  rw [h]

/-- C10: Windows format selection is case-insensitive.  In both
versions copyfig behaves identically on a format string and on its
lowercased form (the argument is lowercased before any validation or
mapping), and passing no format behaves identically to passing the
rcParams default explicitly. -/
theorem C10_format_case_insensitive (env : WinEnv) (b : ClipBehavior)
    (figArg : Option Nat) (f : String) :
    copyfig_win_v310 env b figArg (some f) =
      copyfig_win_v310 env b figArg (some (pyLower f)) ∧
    copyfig_win_v300 env b figArg (some f) =
      copyfig_win_v300 env b figArg (some (pyLower f)) ∧
    copyfig_win_v310 env b figArg none =
      copyfig_win_v310 env b figArg (some env.rcSavefigFormat) ∧
    copyfig_win_v300 env b figArg none =
      copyfig_win_v300 env b figArg (some env.rcSavefigFormat) := by
  have h310 : resolveFormat_v310 (some f) env.rcSavefigFormat =
      resolveFormat_v310 (some (pyLower f)) env.rcSavefigFormat := by
    simp only [resolveFormat_v310, Option.getD_some]
    rw [pyLower_idem]
  have h300 : resolveFormat_v300 (some f) env.rcSavefigFormat =
      resolveFormat_v300 (some (pyLower f)) env.rcSavefigFormat := by
    simp only [resolveFormat_v300, Option.getD_some]
    rw [pyLower_idem]
  exact ⟨copyfig_win_v310_format_congr env b figArg _ _ h310,
    copyfig_win_v300_format_congr env b figArg _ _ h300, rfl, rfl⟩
